import Mathlib

/-
Verification of the password-construction core of `src/TASK3.py`
(`generate_password`) against its design specification.

Randomness model: Python's process-wide PRNG is embedded as an infinite
stream `r : Nat → Nat` of raw draws together with a counter of how many
draws have been consumed.  Each call site that consumes one draw from the
PRNG (`random.choice`, the per-iteration `_randbelow` inside
`random.shuffle`) reads `r k` for the next unused index `k` and reduces it
modulo the size of its range, so the draw is an arbitrary in-range value.
`generate_password` returns the result string together with the total
number of draws consumed, which makes statements about entropy consumption
expressible.
-/

namespace TASK3

/-- `string.ascii_uppercase`. -/
def ascii_uppercase : List Char := "ABCDEFGHIJKLMNOPQRSTUVWXYZ".data

/-- `string.ascii_lowercase`. -/
def ascii_lowercase : List Char := "abcdefghijklmnopqrstuvwxyz".data

/-- `string.digits`. -/
def digits : List Char := "0123456789".data

/-- `string.punctuation` (32 ASCII punctuation characters). -/
def punctuation : List Char := "!\"#$%&\x27()*+,-./:;<=>?@[\\]^_\x60\x7b|\x7d~".data

/-- `random.choice(s)`: pick the element of `s` at an arbitrary in-range
index derived from the next raw draw `r k`. -/
def choice (r : Nat → Nat) (k : Nat) (s : List Char) : Char :=
  s.getD (r k % s.length) 'A'

/-- The in-place swap `x[i], x[j] = x[j], x[i]` performed by each iteration
of `random.shuffle`. -/
def swapAt (l : List Char) (i j : Nat) : List Char :=
  (l.set i (l.getD j 'A')).set j (l.getD i 'A')

/-- The loop of CPython's `random.shuffle`:
`for i in reversed(range(1, len(x))): j = randbelow(i+1); swap x[i] x[j]`.
The third argument is the current index `i`; one draw is consumed per
iteration. -/
def shuffleDown (r : Nat → Nat) : List Char → Nat → Nat → List Char × Nat
  | l, k, 0 => (l, k)
  | l, k, i + 1 => shuffleDown r (swapAt l (i + 1) (r k % (i + 2))) (k + 1) i

/-- `random.shuffle(l)` starting with `k` draws already consumed: returns
the shuffled list and the updated draw counter. -/
def shuffle (r : Nat → Nat) (k : Nat) (l : List Char) : List Char × Nat :=
  shuffleDown r l k (l.length - 1)

/-- `[random.choice(all) for _ in range(n)]` starting at draw counter `k`:
returns the generated list and the updated draw counter. -/
def fill (r : Nat → Nat) (all : List Char) : Nat → Nat → List Char × Nat
  | k, 0 => ([], k)
  | k, n + 1 => (choice r k all :: (fill r all (k + 1) n).1, (fill r all (k + 1) n).2)

/-- The `all_chars` list built by `generate_password`: uppercase and
lowercase letters always; digits added for "medium"; digits and
punctuation added for "high"; nothing else for "low" or any other
strength string (the `if/elif` chain has no final `else`). -/
def universe_chars (strength : String) : List Char :=
  ascii_uppercase ++ ascii_lowercase ++
    (if strength = "medium" then digits
     else if strength = "high" then digits ++ punctuation
     else [])

/-- The `guaranteed_chars` list built by `generate_password`: one
`random.choice` per mandatory class, drawn in source order before the
length check.  Empty for "low" and for unrecognized strength strings. -/
def guaranteed_chars (strength : String) (r : Nat → Nat) : List Char :=
  if strength = "medium" then
    [choice r 0 ascii_uppercase, choice r 1 ascii_lowercase, choice r 2 digits]
  else if strength = "high" then
    [choice r 0 ascii_uppercase, choice r 1 ascii_lowercase, choice r 2 digits,
     choice r 3 punctuation]
  else []

/-- The number of guaranteed character classes of a strength tier
(`|guaranteed_classes(tier)|` in the specification). -/
def guaranteedSize (strength : String) : Nat :=
  if strength = "medium" then 3 else if strength = "high" then 4 else 0

/-- The error string returned by `generate_password` when the requested
length cannot accommodate the guaranteed characters. -/
def errorMsg : String := "Error: Length too short for selected strength."

/-- `random_chars = [random.choice(all_chars) for _ in range(remaining_length)]`
where `remaining_length = length - len(guaranteed_chars)` clamped at 0
(the source clamps a negative value to 0; `Int.toNat` does the same). -/
def filler (length : Int) (strength : String) (r : Nat → Nat) : List Char × Nat :=
  fill r (universe_chars strength) (guaranteed_chars strength r).length
    (length - ((guaranteed_chars strength r).length : Int)).toNat

/-- `final_password_list = guaranteed_chars + random_chars` followed by
`random.shuffle(final_password_list)`. -/
def shuffled (length : Int) (strength : String) (r : Nat → Nat) : List Char × Nat :=
  shuffle r (filler length strength r).2
    (guaranteed_chars strength r ++ (filler length strength r).1)

/-- `generate_password(length, strength)` from `src/TASK3.py`.  The result
is the returned string paired with the number of PRNG draws consumed.
The guaranteed characters are drawn first; then, if
`len(guaranteed_chars) > length`, the fixed error message is returned;
otherwise the filler characters are drawn, the combined list is shuffled
and joined into a string. -/
def generate_password (length : Int) (strength : String) (r : Nat → Nat) : String × Nat :=
  if ((guaranteed_chars strength r).length : Int) > length then
    (errorMsg, (guaranteed_chars strength r).length)
  else
    (String.mk (shuffled length strength r).1, (shuffled length strength r).2)

/-! ### Basic lemmas about the randomness primitives -/

theorem getD_mem : ∀ (l : List Char) (i : Nat) (d : Char), i < l.length → l.getD i d ∈ l
  | _ :: _, 0, _, _ => List.mem_cons_self _ _
  | a :: l, i + 1, d, h =>
      List.mem_cons_of_mem a (getD_mem l i d (Nat.lt_of_succ_lt_succ h))

theorem getD_eq_getElem (l : List Char) (i : Nat) (d : Char) (h : i < l.length) :
    l.getD i d = l[i] := by
  simp [List.getD_eq_getElem?_getD, List.getElem?_eq_getElem h]

theorem choice_mem (r : Nat → Nat) (k : Nat) (s : List Char) (hs : s ≠ []) :
    choice r k s ∈ s :=
  getD_mem s (r k % s.length) 'A' (Nat.mod_lt _ (List.length_pos.mpr hs))

theorem swapAt_length (l : List Char) (i j : Nat) :
    (swapAt l i j).length = l.length := by
  simp [swapAt]

theorem mem_of_mem_swapAt {l : List Char} {i j : Nat} {c : Char}
    (hi : i < l.length) (hj : j < l.length) (h : c ∈ swapAt l i j) : c ∈ l := by
  unfold swapAt at h
  rcases List.mem_or_eq_of_mem_set h with h1 | h1
  · rcases List.mem_or_eq_of_mem_set h1 with h2 | h2
    · exact h2
    · subst h2; exact getD_mem l j 'A' hj
  · subst h1; exact getD_mem l i 'A' hi

theorem mem_swapAt_of_mem {l : List Char} {i j : Nat} {c : Char}
    (hi : i < l.length) (hj : j < l.length) (h : c ∈ l) : c ∈ swapAt l i j := by
  obtain ⟨m, hm, hc⟩ := List.mem_iff_getElem.mp h
  refine List.mem_iff_getElem?.mpr ?_
  unfold swapAt
  by_cases hmj : m = j
  · by_cases hij : i = j
    · refine ⟨j, ?_⟩
      rw [List.getElem?_set_self (by simpa using hj), getD_eq_getElem l i 'A' hi]
      subst hmj; subst hij
      rw [hc]
    · refine ⟨i, ?_⟩
      rw [List.getElem?_set_ne (fun hji => hij hji.symm),
        List.getElem?_set_self hi, getD_eq_getElem l j 'A' hj]
      subst hmj
      rw [hc]
  · by_cases hmi : m = i
    · refine ⟨j, ?_⟩
      rw [List.getElem?_set_self (by simpa using hj), getD_eq_getElem l i 'A' hi]
      subst hmi
      rw [hc]
    · refine ⟨m, ?_⟩
      rw [List.getElem?_set_ne (fun hjm => hmj hjm.symm),
        List.getElem?_set_ne (fun him => hmi him.symm),
        List.getElem?_eq_getElem hm, hc]

theorem shuffleDown_length (r : Nat → Nat) :
    ∀ (i : Nat) (l : List Char) (k : Nat), (shuffleDown r l k i).1.length = l.length
  | 0, _, _ => rfl
  | i + 1, l, k => by
      rw [shuffleDown, shuffleDown_length r i _ (k + 1), swapAt_length]

theorem shuffleDown_count (r : Nat → Nat) :
    ∀ (i : Nat) (l : List Char) (k : Nat), (shuffleDown r l k i).2 = k + i
  | 0, _, _ => rfl
  | i + 1, l, k => by
      rw [shuffleDown, shuffleDown_count r i _ (k + 1)]
      omega

theorem mem_of_mem_shuffleDown (r : Nat → Nat) :
    ∀ (i : Nat) (l : List Char) (k : Nat) (c : Char), i < l.length ∨ i = 0 →
      c ∈ (shuffleDown r l k i).1 → c ∈ l
  | 0, _, _, _, _, h => h
  | i + 1, l, k, c, hi, h => by
      have hi1 : i + 1 < l.length := by
        rcases hi with h' | h'
        · exact h'
        · cases h'
      have hj : r k % (i + 2) < l.length :=
        lt_of_lt_of_le (Nat.mod_lt _ (by omega)) (by omega)
      rw [shuffleDown] at h
      have hmem := mem_of_mem_shuffleDown r i _ (k + 1) c
        (Or.inl (by rw [swapAt_length]; omega)) h
      exact mem_of_mem_swapAt hi1 hj hmem

theorem mem_shuffleDown_of_mem (r : Nat → Nat) :
    ∀ (i : Nat) (l : List Char) (k : Nat) (c : Char), i < l.length ∨ i = 0 →
      c ∈ l → c ∈ (shuffleDown r l k i).1
  | 0, _, _, _, _, h => h
  | i + 1, l, k, c, hi, h => by
      have hi1 : i + 1 < l.length := by
        rcases hi with h' | h'
        · exact h'
        · cases h'
      have hj : r k % (i + 2) < l.length :=
        lt_of_lt_of_le (Nat.mod_lt _ (by omega)) (by omega)
      rw [shuffleDown]
      exact mem_shuffleDown_of_mem r i _ (k + 1) c
        (Or.inl (by rw [swapAt_length]; omega)) (mem_swapAt_of_mem hi1 hj h)

theorem shuffle_length (r : Nat → Nat) (k : Nat) (l : List Char) :
    (shuffle r k l).1.length = l.length :=
  shuffleDown_length r (l.length - 1) l k

theorem shuffle_count (r : Nat → Nat) (k : Nat) (l : List Char) :
    (shuffle r k l).2 = k + (l.length - 1) :=
  shuffleDown_count r (l.length - 1) l k

theorem mem_of_mem_shuffle {r : Nat → Nat} {k : Nat} {l : List Char} {c : Char}
    (h : c ∈ (shuffle r k l).1) : c ∈ l :=
  mem_of_mem_shuffleDown r (l.length - 1) l k c (by omega) h

theorem mem_shuffle_of_mem {r : Nat → Nat} {k : Nat} {l : List Char} {c : Char}
    (h : c ∈ l) : c ∈ (shuffle r k l).1 :=
  mem_shuffleDown_of_mem r (l.length - 1) l k c (by omega) h

theorem fill_length (r : Nat → Nat) (all : List Char) :
    ∀ (k n : Nat), (fill r all k n).1.length = n
  | _, 0 => rfl
  | k, n + 1 => by
      rw [fill]
      simpa using fill_length r all (k + 1) n

theorem fill_count (r : Nat → Nat) (all : List Char) :
    ∀ (k n : Nat), (fill r all k n).2 = k + n
  | _, 0 => rfl
  | k, n + 1 => by
      rw [fill]
      have := fill_count r all (k + 1) n
      simpa using by omega

theorem mem_of_mem_fill (r : Nat → Nat) (all : List Char) (hall : all ≠ []) :
    ∀ (k n : Nat) (c : Char), c ∈ (fill r all k n).1 → c ∈ all
  | _, 0, _, h => absurd h (List.not_mem_nil _)
  | k, n + 1, c, h => by
      rw [fill] at h
      rcases List.mem_cons.mp h with h' | h'
      · subst h'; exact choice_mem r k all hall
      · exact mem_of_mem_fill r all hall (k + 1) n c h'

/-! ### Tier-level lemmas -/

theorem guaranteed_length (strength : String) (r : Nat → Nat) :
    (guaranteed_chars strength r).length = guaranteedSize strength := by
  unfold guaranteed_chars guaranteedSize
  by_cases h1 : strength = "medium" <;> by_cases h2 : strength = "high" <;>
    simp [h1, h2]

theorem universe_ne_nil (strength : String) : universe_chars strength ≠ [] := by
  unfold universe_chars
  simp [ascii_uppercase]

theorem mem_universe_of_mem_guaranteed {strength : String} {r : Nat → Nat} {c : Char}
    (h : c ∈ guaranteed_chars strength r) : c ∈ universe_chars strength := by
  unfold guaranteed_chars at h
  unfold universe_chars
  by_cases h1 : strength = "medium"
  · simp only [h1, if_pos, reduceIte, List.mem_cons, List.not_mem_nil, or_false] at h ⊢
    have hu := choice_mem r 0 ascii_uppercase (by simp [ascii_uppercase])
    have hl := choice_mem r 1 ascii_lowercase (by simp [ascii_lowercase])
    have hd := choice_mem r 2 digits (by simp [digits])
    rcases h with h | h | h <;> subst h <;> simp [hu, hl, hd]
  · by_cases h2 : strength = "high"
    · simp only [h2, String.reduceEq, reduceIte, List.mem_cons, List.not_mem_nil,
        or_false] at h ⊢
      have hu := choice_mem r 0 ascii_uppercase (by simp [ascii_uppercase])
      have hl := choice_mem r 1 ascii_lowercase (by simp [ascii_lowercase])
      have hd := choice_mem r 2 digits (by simp [digits])
      have hp := choice_mem r 3 punctuation (by simp [punctuation])
      rcases h with h | h | h | h <;> subst h <;> simp [hu, hl, hd, hp]
    · simp [h1, h2] at h

theorem space_not_mem_universe (strength : String) :
    Char.ofNat 32 ∉ universe_chars strength := by
  intro h
  unfold universe_chars at h
  rcases List.mem_append.mp h with h' | h'
  · rcases List.mem_append.mp h' with h'' | h''
    · revert h''; decide
    · revert h''; decide
  · by_cases h1 : strength = "medium"
    · rw [if_pos h1] at h'
      revert h'; decide
    · by_cases h2 : strength = "high"
      · rw [if_neg h1, if_pos h2] at h'
        revert h'; decide
      · rw [if_neg h1, if_neg h2] at h'
        exact List.not_mem_nil _ h'

/-! ### Success- and failure-path lemmas for `generate_password` -/

theorem generate_password_of_lt {length : Int} {strength : String} (r : Nat → Nat)
    (h : length < ((guaranteed_chars strength r).length : Int)) :
    generate_password length strength r = (errorMsg, (guaranteed_chars strength r).length) := by
  unfold generate_password
  rw [if_pos (by omega)]

theorem generate_password_of_le {length : Int} {strength : String} (r : Nat → Nat)
    (h : ((guaranteed_chars strength r).length : Int) ≤ length) :
    generate_password length strength r =
      (String.mk (shuffled length strength r).1, (shuffled length strength r).2) := by
  unfold generate_password
  rw [if_neg (by omega)]

theorem shuffled_fst_length (length : Int) (strength : String) (r : Nat → Nat) :
    (shuffled length strength r).1.length =
      (guaranteed_chars strength r).length +
        (length - ((guaranteed_chars strength r).length : Int)).toNat := by
  unfold shuffled filler
  rw [shuffle_length, List.length_append, fill_length]

theorem shuffled_snd (length : Int) (strength : String) (r : Nat → Nat) :
    (shuffled length strength r).2 =
      ((guaranteed_chars strength r).length +
          (length - ((guaranteed_chars strength r).length : Int)).toNat) +
        (((guaranteed_chars strength r).length +
            (length - ((guaranteed_chars strength r).length : Int)).toNat) - 1) := by
  unfold shuffled filler
  rw [shuffle_count, fill_count, List.length_append, fill_length]

theorem password_length_of_le {length : Int} {strength : String} (r : Nat → Nat)
    (h : ((guaranteed_chars strength r).length : Int) ≤ length) :
    ((generate_password length strength r).1).length = length.toNat := by
  rw [generate_password_of_le r h]
  show (shuffled length strength r).1.length = length.toNat
  rw [shuffled_fst_length]
  omega

theorem mem_universe_of_mem_password {length : Int} {strength : String} {r : Nat → Nat}
    {c : Char} (h : ((guaranteed_chars strength r).length : Int) ≤ length)
    (hc : c ∈ ((generate_password length strength r).1).data) :
    c ∈ universe_chars strength := by
  rw [generate_password_of_le r h] at hc
  have hc' : c ∈ guaranteed_chars strength r ++ (filler length strength r).1 :=
    mem_of_mem_shuffle hc
  rcases List.mem_append.mp hc' with h' | h'
  · exact mem_universe_of_mem_guaranteed h'
  · exact mem_of_mem_fill r (universe_chars strength) (universe_ne_nil strength) _ _ c
      (by simpa [filler, fill_length] using h')

theorem mem_password_of_mem_guaranteed {length : Int} {strength : String} {r : Nat → Nat}
    {c : Char} (h : ((guaranteed_chars strength r).length : Int) ≤ length)
    (hc : c ∈ guaranteed_chars strength r) :
    c ∈ ((generate_password length strength r).1).data := by
  rw [generate_password_of_le r h]
  exact mem_shuffle_of_mem (List.mem_append_left _ hc)

theorem password_ne_errorMsg {length : Int} {strength : String} {r : Nat → Nat}
    (h : ((guaranteed_chars strength r).length : Int) ≤ length) :
    (generate_password length strength r).1 ≠ errorMsg := by
  intro heq
  have hsp : Char.ofNat 32 ∈ ((generate_password length strength r).1).data := by
    rw [heq]
    decide
  exact space_not_mem_universe strength (mem_universe_of_mem_password h hsp)

/-! ### Claim theorems -/

/-- Claim C1: for every tier in {low, medium, high} and every integer length with
`length >= |guaranteed_classes(tier)|` and `length >= 0`, the successful result of
`generate_password(length, tier)` is a string of exactly `length` characters,
for every state of the random source. -/
theorem C1_output_length (length : Int) (strength : String) (r : Nat → Nat)
    (hs : strength = "low" ∨ strength = "medium" ∨ strength = "high")
    (h0 : 0 ≤ length) (hg : (guaranteedSize strength : Int) ≤ length) :
    ((generate_password length strength r).1).length = length.toNat :=
  password_length_of_le r (by rw [guaranteed_length]; exact hg)

/-- Witness for C1 at `length = 12`, tier "medium". -/
theorem C1_output_length_witness :
    ((generate_password 12 "medium" (fun k => k * 7 + 3)).1).length = (12 : Int).toNat :=
  C1_output_length 12 "medium" (fun k => k * 7 + 3)
    (Or.inr (Or.inl rfl)) (by decide) (by decide)

/-- Claim C2: for every valid input at tier "medium" or "high"
(`length >= |guaranteed_classes(tier)|`), the output contains at least one
uppercase letter, one lowercase letter and one digit, and for "high"
additionally at least one special character; for "low" the guaranteed list
is empty, so no class is mandatory. -/
theorem C2_guaranteed_classes (length : Int) (strength : String) (r : Nat → Nat)
    (hs : strength = "medium" ∨ strength = "high")
    (hg : (guaranteedSize strength : Int) ≤ length) :
    (∃ c ∈ ((generate_password length strength r).1).data, c ∈ ascii_uppercase) ∧
    (∃ c ∈ ((generate_password length strength r).1).data, c ∈ ascii_lowercase) ∧
    (∃ c ∈ ((generate_password length strength r).1).data, c ∈ digits) ∧
    (strength = "high" →
      ∃ c ∈ ((generate_password length strength r).1).data, c ∈ punctuation) ∧
    guaranteed_chars "low" r = [] := by
  have hgl : ((guaranteed_chars strength r).length : Int) ≤ length := by
    rw [guaranteed_length]; exact hg
  rcases hs with hs | hs
  · subst hs
    refine ⟨⟨choice r 0 ascii_uppercase,
        mem_password_of_mem_guaranteed hgl (by simp [guaranteed_chars]),
        choice_mem r 0 ascii_uppercase (by simp [ascii_uppercase])⟩,
      ⟨choice r 1 ascii_lowercase,
        mem_password_of_mem_guaranteed hgl (by simp [guaranteed_chars]),
        choice_mem r 1 ascii_lowercase (by simp [ascii_lowercase])⟩,
      ⟨choice r 2 digits,
        mem_password_of_mem_guaranteed hgl (by simp [guaranteed_chars]),
        choice_mem r 2 digits (by simp [digits])⟩,
      fun hcontra => absurd hcontra (by decide),
      by simp [guaranteed_chars]⟩
  · subst hs
    refine ⟨⟨choice r 0 ascii_uppercase,
        mem_password_of_mem_guaranteed hgl (by simp [guaranteed_chars]),
        choice_mem r 0 ascii_uppercase (by simp [ascii_uppercase])⟩,
      ⟨choice r 1 ascii_lowercase,
        mem_password_of_mem_guaranteed hgl (by simp [guaranteed_chars]),
        choice_mem r 1 ascii_lowercase (by simp [ascii_lowercase])⟩,
      ⟨choice r 2 digits,
        mem_password_of_mem_guaranteed hgl (by simp [guaranteed_chars]),
        choice_mem r 2 digits (by simp [digits])⟩,
      fun _ => ⟨choice r 3 punctuation,
        mem_password_of_mem_guaranteed hgl (by simp [guaranteed_chars]),
        choice_mem r 3 punctuation (by simp [punctuation])⟩,
      by simp [guaranteed_chars]⟩

/-- Witness for C2 at `length = 8`, tier "high". -/
theorem C2_guaranteed_classes_witness :
    (∃ c ∈ ((generate_password 8 "high" (fun k => k * 13 + 5)).1).data,
        c ∈ ascii_uppercase) ∧
    (∃ c ∈ ((generate_password 8 "high" (fun k => k * 13 + 5)).1).data,
        c ∈ ascii_lowercase) ∧
    (∃ c ∈ ((generate_password 8 "high" (fun k => k * 13 + 5)).1).data, c ∈ digits) ∧
    ("high" = "high" →
      ∃ c ∈ ((generate_password 8 "high" (fun k => k * 13 + 5)).1).data,
        c ∈ punctuation) ∧
    guaranteed_chars "low" (fun k => k * 13 + 5) = [] :=
  C2_guaranteed_classes 8 "high" (fun k => k * 13 + 5) (Or.inr rfl) (by decide)

/-- Claim C3: every character of a successful output of
`generate_password(length, tier)` belongs to the tier's sampling universe
(`universe_chars`): only letters for "low", only letters and digits for
"medium", only letters, digits and punctuation for "high". -/
theorem C3_output_in_universe (length : Int) (strength : String) (r : Nat → Nat)
    (hs : strength = "low" ∨ strength = "medium" ∨ strength = "high")
    (hok : (generate_password length strength r).1 ≠ errorMsg) :
    ∀ c ∈ ((generate_password length strength r).1).data,
      c ∈ universe_chars strength := by
  by_cases h : ((guaranteed_chars strength r).length : Int) ≤ length
  · exact fun c hc => mem_universe_of_mem_password h hc
  · exact absurd (congrArg Prod.fst (generate_password_of_lt r (by omega))) hok

/-- Witness for C3 at `length = 4`, tier "high", instantiated at the first
character of the concrete output. -/
theorem C3_output_in_universe_witness :
    ((generate_password 4 "high" (fun k => k * 13 + 5)).1).data.headD 'A' ∈
      universe_chars "high" :=
  C3_output_in_universe 4 "high" (fun k => k * 13 + 5)
    (Or.inr (Or.inr rfl)) (by decide) _ (by decide)

/-- Claim C4: for every tier in {low, medium, high} and every non-negative
length, `generate_password` fails with the insufficient-length error (its
result is `errorMsg`) if and only if `length < |guaranteed_classes(tier)|`.
In particular "low" (empty guaranteed set) never fails on non-negative
lengths. -/
theorem C4_insufficient_iff (length : Int) (strength : String) (r : Nat → Nat)
    (hs : strength = "low" ∨ strength = "medium" ∨ strength = "high")
    (h0 : 0 ≤ length) :
    (generate_password length strength r).1 = errorMsg ↔
      length < (guaranteedSize strength : Int) := by
  constructor
  · intro heq
    by_contra hge
    exact password_ne_errorMsg (by rw [guaranteed_length]; omega) heq
  · intro hlt
    exact congrArg Prod.fst
      (generate_password_of_lt r (by rw [guaranteed_length]; omega))

/-- Witness for C4 at `length = 2`, tier "high" (which needs 4 guaranteed
characters, so the call fails). -/
theorem C4_insufficient_iff_witness :
    (generate_password 2 "high" (fun k => k * 13 + 5)).1 = errorMsg ↔
      (2 : Int) < (guaranteedSize "high" : Int) :=
  C4_insufficient_iff 2 "high" (fun k => k * 13 + 5) (Or.inr (Or.inr rfl)) (by decide)

/-- Claim C5 counterexample: the claim says a request with `length <= 0`
(other than `length = 0` at "low") is rejected as a distinct `InvalidLength`
error.  In the code there is no `InvalidLength` path at all: a negative
length falls into the same `len(guaranteed_chars) > length` check and
returns the very same insufficient-length error string — here shown at
`length = -1`, tier "low" (0 draws consumed) and at `length = -5`, tier
"medium", whose response is identical to the genuine insufficient-length
failure at `length = 0`, tier "medium". -/
theorem C5_counterexample :
    generate_password (-1) "low" (fun _ => 0) = (errorMsg, 0) ∧
    generate_password (-5) "medium" (fun _ => 0) =
      generate_password 0 "medium" (fun _ => 0) := by
  decide

/-- Claim C5 (amended): for every tier in {low, medium, high} and every
`length <= 0` — except `length = 0` when the tier's guaranteed set is empty —
`generate_password` rejects the request, but with the single
insufficient-length error string `errorMsg`; no distinct `InvalidLength`
error exists in the code. -/
theorem C5_nonpositive_rejected (length : Int) (strength : String) (r : Nat → Nat)
    (hs : strength = "low" ∨ strength = "medium" ∨ strength = "high")
    (hle : length ≤ 0) (hx : ¬(length = 0 ∧ guaranteedSize strength = 0)) :
    (generate_password length strength r).1 = errorMsg := by
  refine congrArg Prod.fst (generate_password_of_lt r ?_)
  rw [guaranteed_length]
  by_cases hz : length = 0
  · have hne : guaranteedSize strength ≠ 0 := fun h => hx ⟨hz, h⟩
    omega
  · omega

/-- Witness for the amended C5 at `length = -2`, tier "low". -/
theorem C5_nonpositive_rejected_witness :
    (generate_password (-2) "low" (fun k => k * 7 + 3)).1 = errorMsg :=
  C5_nonpositive_rejected (-2) "low" (fun k => k * 7 + 3)
    (Or.inl rfl) (by decide) (by decide)

/-- Claim C6 counterexample: the claim says that on the insufficient-length
failure path no randomness is consumed.  In the code the guaranteed
characters are drawn *before* the length check: at `length = 2`, tier
"high", the call fails yet 4 PRNG draws have been consumed (the second
component counts consumed draws; the claim requires 0). -/
theorem C6_counterexample :
    (generate_password 2 "high" (fun _ => 0)).1 = errorMsg ∧
    (generate_password 2 "high" (fun _ => 0)).2 = 4 := by
  decide

/-- Claim C6 (amended): when `length < |guaranteed_classes(tier)|` the
failure is deterministic — the entire response is the same for every state
of the random source — but the tier's guaranteed draws are consumed before
the check: exactly `guaranteedSize` draws (0 for "low", 3 for "medium",
4 for "high"), so for "medium" and "high" the random source does advance. -/
theorem C6_failure_deterministic (length : Int) (strength : String)
    (r rr : Nat → Nat)
    (hs : strength = "low" ∨ strength = "medium" ∨ strength = "high")
    (hlt : length < (guaranteedSize strength : Int)) :
    generate_password length strength r = generate_password length strength rr ∧
    (generate_password length strength r).2 = guaranteedSize strength := by
  have e1 := generate_password_of_lt r
    (show length < ((guaranteed_chars strength r).length : Int) by
      rw [guaranteed_length]; omega)
  have e2 := generate_password_of_lt rr
    (show length < ((guaranteed_chars strength rr).length : Int) by
      rw [guaranteed_length]; omega)
  rw [e1, e2]
  simp [guaranteed_length]

/-- Witness for the amended C6 at `length = 2`, tier "high", two different
random sources. -/
theorem C6_failure_deterministic_witness :
    generate_password 2 "high" (fun _ => 0) = generate_password 2 "high" (fun k => k + 1) ∧
    (generate_password 2 "high" (fun _ => 0)).2 = guaranteedSize "high" :=
  C6_failure_deterministic 2 "high" (fun _ => 0) (fun k => k + 1)
    (Or.inr (Or.inr rfl)) (by decide)

/-- Claim C7 counterexample: the claim says failures are not conveyed
in-band as ordinary strings but as a distinguished error value with a kind
in {InsufficientLength, InvalidLength}.  In the code the failure response
*is* a plain string delivered in the same channel as passwords — at
`length = 1`, tier "medium", the returned value is the error message string
itself, and no error-kind value (in particular no `InvalidLength`) exists
anywhere in `generate_password`. -/
theorem C7_counterexample :
    (generate_password 1 "medium" (fun _ => 0)).1 = errorMsg := by
  decide

/-- Claim C7 (amended): every response of `generate_password` is a single
string: on failure it is exactly the fixed error message `errorMsg` (one
kind only — there is no `InvalidLength`), and on success it is a password
over the tier's universe, which can never equal `errorMsg` (the message
contains a space, which belongs to no tier universe) — so the caller can
still distinguish the two response shapes by comparing with `errorMsg`. -/
theorem C7_responses_distinguishable (length : Int) (strength : String)
    (r : Nat → Nat)
    (hs : strength = "low" ∨ strength = "medium" ∨ strength = "high") :
    ((generate_password length strength r).1 = errorMsg ∧
       length < (guaranteedSize strength : Int)) ∨
    ((generate_password length strength r).1 ≠ errorMsg ∧
       ∀ c ∈ ((generate_password length strength r).1).data,
         c ∈ universe_chars strength) := by
  by_cases h : ((guaranteed_chars strength r).length : Int) ≤ length
  · exact Or.inr ⟨password_ne_errorMsg h, fun c hc =>
      mem_universe_of_mem_password h hc⟩
  · refine Or.inl ⟨congrArg Prod.fst (generate_password_of_lt r (by omega)), ?_⟩
    rw [← guaranteed_length strength r]
    omega

/-- Witness for the amended C7 at `length = 3`, tier "medium". -/
theorem C7_responses_distinguishable_witness :
    ((generate_password 3 "medium" (fun k => k * 7 + 3)).1 = errorMsg ∧
       (3 : Int) < (guaranteedSize "medium" : Int)) ∨
    ((generate_password 3 "medium" (fun k => k * 7 + 3)).1 ≠ errorMsg ∧
       ∀ c ∈ ((generate_password 3 "medium" (fun k => k * 7 + 3)).1).data,
         c ∈ universe_chars "medium") :=
  C7_responses_distinguishable 3 "medium" (fun k => k * 7 + 3) (Or.inr (Or.inl rfl))

/-- Claim C8: `generate_password 0 "low"` succeeds and returns the empty
string (and consumes no randomness), for every random source: the
guaranteed set of "low" is empty, so zero length is structurally
satisfiable. -/
theorem C8_zero_low (r : Nat → Nat) : generate_password 0 "low" r = ("", 0) := rfl

/-- Witness for C8 at a concrete random source. -/
theorem C8_zero_low_witness : generate_password 0 "low" (fun k => k * 7 + 3) = ("", 0) :=
  C8_zero_low (fun k => k * 7 + 3)

/-- Claim C9: `generate_password` terminates unconditionally — every
function of this embedding is defined by structural recursion and is total
— and its work is linear in `length`: on the failure path exactly
`guaranteedSize` draws are consumed, and on the success path exactly
`length` filler-plus-guaranteed draws plus `length - 1` shuffle draws, i.e.
`length.toNat + (length.toNat - 1)` in total. -/
theorem C9_draw_count (length : Int) (strength : String) (r : Nat → Nat)
    (hs : strength = "low" ∨ strength = "medium" ∨ strength = "high") :
    (length < (guaranteedSize strength : Int) →
      (generate_password length strength r).2 = guaranteedSize strength) ∧
    ((guaranteedSize strength : Int) ≤ length →
      (generate_password length strength r).2 = length.toNat + (length.toNat - 1)) := by
  constructor
  · intro hlt
    rw [generate_password_of_lt r (by rw [guaranteed_length]; omega)]
    exact guaranteed_length strength r
  · intro hge
    have h : ((guaranteed_chars strength r).length : Int) ≤ length := by
      rw [guaranteed_length]; exact hge
    rw [generate_password_of_le r h]
    show (shuffled length strength r).2 = _
    rw [shuffled_snd]
    omega

/-- Witness for C9 at `length = 12`, tier "medium": 23 draws in total. -/
theorem C9_draw_count_witness :
    (generate_password 12 "medium" (fun k => k * 7 + 3)).2 =
      (12 : Int).toNat + ((12 : Int).toNat - 1) :=
  (C9_draw_count 12 "medium" (fun k => k * 7 + 3) (Or.inr (Or.inl rfl))).2 (by decide)

/-- Claim C10: for every strength string outside {"low", "medium", "high"}
and every `length >= 0`, `generate_password` behaves exactly like the "low"
tier: the same response as for "low" for the same random source, a
successful string of exactly `length` characters, never the
insufficient-length error, and every output character an ASCII letter
(uppercase or lowercase) — the unknown tier is silently accepted. -/
theorem C10_unknown_strength (length : Int) (strength : String) (r : Nat → Nat)
    (h1 : strength ≠ "low") (h2 : strength ≠ "medium") (h3 : strength ≠ "high")
    (h0 : 0 ≤ length) :
    generate_password length strength r = generate_password length "low" r ∧
    ((generate_password length strength r).1).length = length.toNat ∧
    (generate_password length strength r).1 ≠ errorMsg ∧
    ∀ c ∈ ((generate_password length strength r).1).data,
      c ∈ ascii_uppercase ++ ascii_lowercase := by
  have hu : universe_chars strength = universe_chars "low" := by
    simp [universe_chars, h2, h3]
  have hg : guaranteed_chars strength r = guaranteed_chars "low" r := by
    simp [guaranteed_chars, h2, h3]
  have heq : generate_password length strength r = generate_password length "low" r := by
    unfold generate_password shuffled filler
    rw [hu, hg]
  have hgl : (guaranteed_chars strength r).length = 0 := by
    simp [guaranteed_chars, h2, h3]
  have hle : ((guaranteed_chars strength r).length : Int) ≤ length := by
    rw [hgl]; omega
  refine ⟨heq, password_length_of_le r hle, password_ne_errorMsg hle, fun c hc => ?_⟩
  have hm := mem_universe_of_mem_password hle hc
  simpa [universe_chars, h2, h3] using hm

/-- Witness for C10 at the unknown strength "crazy", `length = 5`. -/
theorem C10_unknown_strength_witness :
    generate_password 5 "crazy" (fun k => k * 13 + 5) =
      generate_password 5 "low" (fun k => k * 13 + 5) ∧
    ((generate_password 5 "crazy" (fun k => k * 13 + 5)).1).length = (5 : Int).toNat ∧
    (generate_password 5 "crazy" (fun k => k * 13 + 5)).1 ≠ errorMsg ∧
    ∀ c ∈ ((generate_password 5 "crazy" (fun k => k * 13 + 5)).1).data,
      c ∈ ascii_uppercase ++ ascii_lowercase :=
  C10_unknown_strength 5 "crazy" (fun k => k * 13 + 5)
    (by decide) (by decide) (by decide) (by decide)

end TASK3
